import Mathlib

/-!
Shallow embedding of the WebRTC signaling gateway of FACTO-NODE-BE
(`src/modules/calls/presentation/gateways/SignalingGateway.ts`), the AI
conversation service (`src/modules/calls/application/services/AIConversationService.ts`)
and the chat gateway's conversation-window logic
(`src/modules/chat/presentation/gateways/ChatGateway.ts`).

JavaScript `Map`s are modelled as insertion-ordered association lists
(`set` replaces in place, otherwise appends; `delete` removes the entry;
iteration order is list order), a JavaScript `Set` as a `List String`.
Audio buffers are byte lists (`List Nat`); the base64 transport decoding
performed by `Buffer.from(audioData, 'base64')` happens at ingress, so
inbound audio events carry the decoded byte list.  Timestamps
(`Date.now()`) are integers.  The external OpenAI calls are an oracle
(`Oracle`): each network call either returns a value or throws, and the
service-layer wrappers around them are translated from the source.
-/

/-- JS `Map.get`: value of the first (unique) entry with the given key. -/
def mget (k : String) : List (String × α) → Option α
  | [] => none
  | (k₁, v₁) :: rest => if k₁ = k then some v₁ else mget k rest

/-- JS `Map.set`: replace in place when the key exists, else append. -/
def mset (k : String) (v : α) : List (String × α) → List (String × α)
  | [] => [(k, v)]
  | (k₁, v₁) :: rest => if k₁ = k then (k, v) :: rest else (k₁, v₁) :: mset k v rest

/-- JS `Map.delete`: remove the entry with the given key (a JS map holds
at most one entry per key). -/
def mdelete (k : String) : List (String × α) → List (String × α)
  | [] => []
  | (k₁, v₁) :: rest => if k₁ = k then mdelete k rest else (k₁, v₁) :: mdelete k rest

theorem mget_mset_self (k : String) (v : α) (m : List (String × α)) :
    mget k (mset k v m) = some v := by
  induction m with
  | nil => simp [mget, mset]
  | cons p rest ih =>
    by_cases h : p.1 = k
    · simp [mset, h, mget]
    · simp [mset, h, mget, ih]

theorem mget_mset_ne (k t : String) (v : α) (m : List (String × α)) (h : ¬ t = k) :
    mget k (mset t v m) = mget k m := by
  induction m with
  | nil => simp [mget, mset, h]
  | cons p rest ih =>
    by_cases h1 : p.1 = t
    · have hk : ¬ p.1 = k := by rw [h1]; exact h
      simp [mset, h1, mget, h, hk]
    · have hkt : ¬ k = t := fun he => h he.symm
      by_cases h2 : p.1 = k
      · simp [mset, h1, mget, h2, hkt]
      · simp [mset, h1, mget, h2, ih]

theorem mget_mdelete_self (k : String) (m : List (String × α)) :
    mget k (mdelete k m) = none := by
  induction m with
  | nil => simp [mget, mdelete]
  | cons p rest ih =>
    by_cases h : p.1 = k
    · simp [mdelete, h, ih]
    · simp [mdelete, h, mget, ih]

theorem mget_mdelete_ne (k t : String) (m : List (String × α)) (h : ¬ t = k) :
    mget k (mdelete t m) = mget k m := by
  induction m with
  | nil => simp [mget, mdelete]
  | cons p rest ih =>
    have hkt : ¬ k = t := fun he => h he.symm
    by_cases h1 : p.1 = t
    · have h2 : ¬ p.1 = k := by rw [h1]; exact h
      simp [mdelete, h1, mget, h2, h, ih]
    · by_cases h2 : p.1 = k
      · simp [mdelete, h1, mget, h2, hkt]
      · simp [mdelete, h1, mget, h2, ih]

theorem mdelete_of_mget_none (k : String) (m : List (String × α))
    (h : mget k m = none) : mdelete k m = m := by
  induction m with
  | nil => simp [mdelete]
  | cons p rest ih =>
    by_cases h1 : p.1 = k
    · simp [mget, h1] at h
    · simp [mget, h1] at h
      simp [mdelete, h1, ih h]

theorem mdelete_mdelete (k : String) (m : List (String × α)) :
    mdelete k (mdelete k m) = mdelete k m :=
  mdelete_of_mget_none k (mdelete k m) (mget_mdelete_self k m)

/-- JS `Set.delete` on a duplicate-free list. -/
def sdelete (k : String) : List String → List String
  | [] => []
  | g :: rest => if g = k then sdelete k rest else g :: sdelete k rest

theorem sdelete_not_mem (k : String) (s : List String) :
    ¬ k ∈ sdelete k s := by
  induction s with
  | nil => simp [sdelete]
  | cons a rest ih =>
    by_cases h : a = k
    · simp [sdelete, h, ih]
    · simp [sdelete, h, ih]
      intro he; exact h he.symm

theorem mem_sdelete_ne (k t : String) (s : List String) (h : ¬ t = k) :
    (k ∈ sdelete t s) ↔ k ∈ s := by
  induction s with
  | nil => simp [sdelete]
  | cons a rest ih =>
    have hkt : ¬ k = t := fun he => h he.symm
    by_cases h1 : a = t
    · have hk : ¬ k = a := by rw [h1]; intro he; exact h he.symm
      simp [sdelete, h1, ih, hk, hkt]
    · simp [sdelete, h1, ih]

theorem sdelete_of_not_mem (k : String) (s : List String) (h : ¬ k ∈ s) :
    sdelete k s = s := by
  induction s with
  | nil => rfl
  | cons a rest ih =>
    have ha : ¬ a = k := by
      intro he; rw [he] at h; exact h (List.mem_cons_self k rest)
    have hr : ¬ k ∈ rest := fun hm => h (List.mem_cons_of_mem a hm)
    simp [sdelete, ha, ih hr]

theorem sdelete_sdelete (k : String) (s : List String) :
    sdelete k (sdelete k s) = sdelete k s :=
  sdelete_of_not_mem k (sdelete k s) (sdelete_not_mem k s)

/-- Message role in the conversation history. -/
inductive Role where
  | user
  | assistant
  deriving DecidableEq

/-- One entry of a session's conversation history
(`{ role: 'user' | 'assistant'; content: string }`). -/
structure Msg where
  role : Role
  content : String
  deriving DecidableEq

/-- Session registry entry (`{ socketId: string; peerId: string; callId?: string }`). -/
structure SessionInfo where
  socketId : String
  peerId : String
  callId : Option String
  deriving DecidableEq

/-- Server-side peer resource (`AICallPeer`): `close()` closes the RTC
connection and clears the buffered audio chunks. -/
structure AICallPeer where
  sessionId : String
  callId : String
  closed : Bool
  audioChunks : List (List Nat)
  deriving DecidableEq

/-- `AICallPeer.close`. -/
def AICallPeer.close (p : AICallPeer) : AICallPeer :=
  { p with closed := true, audioChunks := [] }

/-- The mutable per-session state of `SignalingGateway`. -/
structure GatewayState where
  sessions : List (String × SessionInfo)
  aiPeers : List (String × AICallPeer)
  greetingSent : List String
  processingAudio : List (String × Bool)
  conversationHistory : List (String × List Msg)
  sessionLastActivity : List (String × Int)
  deriving DecidableEq

/-- The gateway state right after construction: every map empty. -/
def GatewayState.empty : GatewayState :=
  ⟨[], [], [], [], [], []⟩

/-- `SESSION_TIMEOUT_MS = 30 * 60 * 1000`. -/
def SESSION_TIMEOUT_MS : Int := 30 * 60 * 1000

/-- `CLEANUP_INTERVAL_MS = 5 * 60 * 1000`. -/
def CLEANUP_INTERVAL_MS : Int := 5 * 60 * 1000

/-- Observable outbound socket traffic and scheduled work of one handler run. -/
inductive Emit where
  | peerJoined (room peerId : String)
  | joinedSession (socketId sessionId peerId : String)
  | answer (socketId : String)
  | errorEvt (socketId message : String)
  | greetingScheduled (room : String)
  | aiAudioResponse (room : String) (audio : List Nat)
  | peerLeft (room peerId : String)
  | leftSession (socketId sessionId : String)
  | peerDisconnected (room peerId : String)
  deriving DecidableEq

/-! ## AI conversation service (`AIConversationService.ts`)

The OpenAI network calls are an oracle: each call either produces a value
(`Except.ok`) or throws (`Except.error`).  The wrappers below translate
the service methods' own try/catch structure. -/

/-- Results of the external OpenAI calls during one pipeline run. -/
structure Oracle where
  /-- `openai.audio.transcriptions.create` (Whisper). -/
  whisper : List Nat → Except String String
  /-- `openai.chat.completions.create` (response text obtained from the
  completion, including the optional welfare-search function-calling round
  trip, which also ends in a single response string). -/
  chat : String → List Msg → Except String String
  /-- `openai.audio.speech.create` (TTS audio bytes). -/
  speech : String → Except String (List Nat)

/-- `AIConversationService.transcribeAudio`: the catch block swallows the
error and returns the empty string, so this method never throws. -/
def transcribeAudio (o : Oracle) (audioBuffer : List Nat) : String :=
  match o.whisper audioBuffer with
  | .ok text => text
  | .error _ => ""

/-- `AIConversationService.generateResponse`: the catch block rethrows a
generic error. -/
def generateResponse (o : Oracle) (userMessage : String) (conversationHistory : List Msg) :
    Except String String :=
  match o.chat userMessage conversationHistory with
  | .ok response => .ok response
  | .error _ => .error "AI 서비스를 사용할 수 없습니다"

/-- `AIConversationService.textToSpeech`: the catch block rethrows a
generic error. -/
def textToSpeech (o : Oracle) (text : String) : Except String (List Nat) :=
  match o.speech text with
  | .ok buffer => .ok buffer
  | .error _ => .error "음성 생성에 실패했습니다"

/-- JS `String.prototype.trim()`: strip leading and trailing whitespace
(the common ASCII whitespace characters; the source strings are produced
by Whisper, so the exotic Unicode space classes JS also strips are not
modelled).  Lean's own `String.trim` is defined by well-founded recursion
and does not reduce in the kernel, so the JS behaviour is modelled
directly on the character list. -/
def isJsWhitespace (c : Char) : Bool :=
  c = ' ' || c = '\t' || c = '\n' || c = '\r' || c = '\x0b' || c = '\x0c'

/-- See `isJsWhitespace`. -/
def jsTrim (s : String) : String :=
  ⟨((s.data.dropWhile isJsWhitespace).reverse.dropWhile isJsWhitespace).reverse⟩

/-! ## Noise-pattern filter (`handleUserAudio`, `noisePatterns`)

The JS regexes are tested with `.test` (substring semantics unless
anchored) and the `/i` flag (modelled by ASCII lower-casing both sides;
`.` is modelled as matching any character). -/

/-- Rest of the haystack after the first occurrence of `pat` (substring
search over characters). -/
def restAfter (pat : List Char) : List Char → Option (List Char)
  | [] => if pat.isEmpty then some [] else none
  | c :: rest =>
    if pat.isPrefixOf (c :: rest) then some ((c :: rest).drop pat.length)
    else restAfter pat rest

/-- `A.*B.*…` substring regex: each pattern occurs, in order, each after
the end of the previous match. -/
def seqContains (hay : List Char) : List (List Char) → Bool
  | [] => true
  | p :: ps =>
    match restAfter p hay with
    | some rest => seqContains rest ps
    | none => false

/-- `^(c+)$` for a single character `c`: the whole string is one or more
repetitions of `c`. -/
def allRepeat (c : Char) (l : List Char) : Bool :=
  !l.isEmpty && l.all (fun x => x = c)

/-- `/^(uh+|um+|ah+|hmm+)$/i` on an already lower-cased string. -/
def englishFillerMatch (lt : List Char) : Bool :=
  match lt with
  | 'u' :: rest => allRepeat 'h' rest || allRepeat 'm' rest
  | 'a' :: rest => allRepeat 'h' rest
  | 'h' :: rest => decide (2 ≤ rest.length) && rest.all (fun x => x = 'm')
  | _ => false

/-- The `noisePatterns.some((pattern) => pattern.test(userMessage.trim()))`
check of `handleUserAudio`, one disjunct per source regex. -/
def noiseDetected (userMessage : String) : Bool :=
  let t := (jsTrim userMessage).toList
  let lt := t.map Char.toLower
  -- /^(아+|음+|어+|네+|예+|으+|흠+)$/i  (Korean fillers)
  (['아', '음', '어', '네', '예', '으', '흠'].any (fun c => allRepeat c t))
  -- /시청.*감사/i
  || seqContains lt ["시청".toList, "감사".toList]
  -- /구독.*좋아요/i
  || seqContains lt ["구독".toList, "좋아요".toList]
  -- /좋아요.*구독/i
  || seqContains lt ["좋아요".toList, "구독".toList]
  -- /thumbs.*up.*subscribe/i
  || seqContains lt ["thumbs".toList, "up".toList, "subscribe".toList]
  -- /subscribe.*like/i
  || seqContains lt ["subscribe".toList, "like".toList]
  -- /영상.*편집.*감사/i
  || seqContains lt ["영상".toList, "편집".toList, "감사".toList]
  -- /뉴스.*입니다/i
  || seqContains lt ["뉴스".toList, "입니다".toList]
  -- /mbc|sbs|kbs|jtbc/i
  || (["mbc", "sbs", "kbs", "jtbc"].any (fun b => seqContains lt [b.toList]))
  -- /배경.*잡음/i
  || seqContains lt ["배경".toList, "잡음".toList]
  -- /^(uh+|um+|ah+|hmm+)$/i
  || englishFillerMatch lt
  -- /^(끝|end|종료|stop)$/i
  || (["끝", "end", "종료", "stop"].any (fun w => lt = w.toList))
  -- /promoting.*video/i
  || seqContains lt ["promoting".toList, "video".toList]

/-! ## Gateway handlers (`SignalingGateway.ts`) -/

/-- Feedback message of the size-floor and too-short branches. -/
def feedbackUnclear : String := "죄송합니다, 잘 들리지 않았어요. 다시 말씀해주시겠어요?"

/-- Feedback message of the empty-transcription and noise branches. -/
def feedbackNotUnderstood : String :=
  "죄송합니다, 말씀을 잘 못 알아들었어요. 다시 한번 말씀해주시겠어요?"

/-- `sendFeedbackResponse`: synthesize the feedback message and emit it as
an `ai-audio-response` to the session room; its catch block swallows a
synthesis failure (nothing is emitted then). -/
def sendFeedbackResponse (o : Oracle) (sessionId message : String) : List Emit :=
  match textToSpeech o message with
  | .ok feedbackAudio => [.aiAudioResponse sessionId feedbackAudio]
  | .error _ => []

/-- `updateSessionActivity`: `sessionLastActivity.set(sessionId, Date.now())`. -/
def updateSessionActivity (now : Int) (sessionId : String) (st : GatewayState) : GatewayState :=
  { st with sessionLastActivity := mset sessionId now st.sessionLastActivity }

/-- `handleJoinSession`: store the session info, update activity, notify
the room and the caller. -/
def handleJoinSession (now : Int) (clientId sessionId peerId : String)
    (callId : Option String) (st : GatewayState) : GatewayState × List Emit :=
  let st := { st with sessions := mset sessionId ⟨clientId, peerId, callId⟩ st.sessions }
  let st := updateSessionActivity now sessionId st
  (st, [.peerJoined sessionId peerId, .joinedSession clientId sessionId peerId])

/-- The conversation-window update of `handleUserAudio` steps 4–5: push the
user and assistant messages, then `splice(0, length - 20)` when the window
exceeds 20 messages. -/
def appendTurn (history : List Msg) (userMessage aiResponse : String) : List Msg :=
  let h := history ++ [⟨.user, userMessage⟩, ⟨.assistant, aiResponse⟩]
  if 20 < h.length then h.drop (h.length - 20) else h

/-- The identical window update of `ChatGateway.handleSendMessage`. -/
def chatAppendTurn (history : List Msg) (message aiResponse : String) : List Msg :=
  let h := history ++ [⟨.user, message⟩, ⟨.assistant, aiResponse⟩]
  if 20 < h.length then h.drop (h.length - 20) else h

/-- The synchronous prefix of `handleUserAudio`: the processing-latch
check, and on acceptance the latch acquisition and the activity update
(everything before the first `await`).  Returns `true` iff the event was
accepted. -/
def audioBegin (now : Int) (sessionId : String) (st : GatewayState) : GatewayState × Bool :=
  if mget sessionId st.processingAudio = some true then (st, false)
  else
    (updateSessionActivity now sessionId
       { st with processingAudio := mset sessionId true st.processingAudio }, true)

/-- The body of `handleUserAudio`'s `try` block after latch acquisition:
size floor, transcription, the three transcript filters, generation,
window update, synthesis; the `catch` block turns a thrown generation or
synthesis error into a generic `error` event to the calling socket. -/
def audioPipelineBody (o : Oracle) (clientId sessionId : String) (audioBuffer : List Nat)
    (st : GatewayState) : GatewayState × List Emit :=
  if audioBuffer.length < 20000 then
    (st, sendFeedbackResponse o sessionId feedbackUnclear)
  else
    let userMessage := transcribeAudio o audioBuffer
    if (jsTrim userMessage).length = 0 then
      (st, sendFeedbackResponse o sessionId feedbackNotUnderstood)
    else if (jsTrim userMessage).length < 3 then
      (st, sendFeedbackResponse o sessionId feedbackUnclear)
    else if noiseDetected userMessage then
      (st, sendFeedbackResponse o sessionId feedbackNotUnderstood)
    else
      let history := (mget sessionId st.conversationHistory).getD []
      match generateResponse o userMessage history with
      | .error _ => (st, [.errorEvt clientId "Failed to process audio"])
      | .ok aiResponse =>
        let newHistory := appendTurn history userMessage aiResponse
        let st := { st with conversationHistory := mset sessionId newHistory st.conversationHistory }
        match textToSpeech o aiResponse with
        | .error _ => (st, [.errorEvt clientId "Failed to process audio"])
        | .ok aiAudioBuffer => (st, [.aiAudioResponse sessionId aiAudioBuffer])

/-- `handleUserAudio`: latch check, then the pipeline, then the `finally`
block that resets the latch to `false`. -/
def handleUserAudio (o : Oracle) (now : Int) (clientId sessionId : String)
    (audioBuffer : List Nat) (st : GatewayState) : GatewayState × List Emit :=
  match audioBegin now sessionId st with
  | (st₁, false) => (st₁, [])
  | (st₁, true) =>
    let r := audioPipelineBody o clientId sessionId audioBuffer st₁
    ({ r.1 with processingAudio := mset sessionId false r.1.processingAudio }, r.2)

/-- `handleOffer`: look up or synthesize the session entry (fallback when
`join-session` was skipped), default the `callId`, create and store a
fresh `AICallPeer`, then answer; `aiPeer.handleOffer` may throw
(`offerOk = false`), which is caught and surfaced as an `error` event.
On success the one-shot greeting is scheduled (a `setTimeout`, recorded
here as a `greetingScheduled` emission). -/
def handleOffer (offerOk : Bool) (clientId sessionId peerId : String)
    (st : GatewayState) : GatewayState × List Emit :=
  let session :=
    match mget sessionId st.sessions with
    | some s => s
    | none => ⟨clientId, peerId, some sessionId⟩
  let session :=
    match session.callId with
    | some _ => session
    | none => { session with callId := some sessionId }
  let st := { st with sessions := mset sessionId session st.sessions }
  let aiPeer : AICallPeer := ⟨sessionId, session.callId.getD sessionId, false, []⟩
  let st := { st with aiPeers := mset sessionId aiPeer st.aiPeers }
  if offerOk then
    if sessionId ∈ st.greetingSent then
      (st, [.answer clientId])
    else
      ({ st with greetingSent := st.greetingSent ++ [sessionId] },
       [.answer clientId, .greetingScheduled sessionId])
  else
    (st, [.errorEvt clientId "Failed to establish connection with AI server"])

/-- `handleLeaveSession`: remove the registry entry, the greeting flag,
the processing latch and the conversation history, and notify; the
`aiPeers` and `sessionLastActivity` maps are not touched. -/
def handleLeaveSession (clientId sessionId peerId : String)
    (st : GatewayState) : GatewayState × List Emit :=
  ({ st with
      sessions := mdelete sessionId st.sessions,
      greetingSent := sdelete sessionId st.greetingSent,
      processingAudio := mdelete sessionId st.processingAudio,
      conversationHistory := mdelete sessionId st.conversationHistory },
   [.peerLeft sessionId peerId, .leftSession clientId sessionId])

/-- `handleDisconnect`: find the first registry entry (map iteration
order) whose `socketId` is the disconnecting client, tear that session
down (close and drop the peer, drop the registry entry, greeting flag,
latch and history — `sessionLastActivity` is not touched) and `break`. -/
def handleDisconnect (clientId : String) (st : GatewayState) : GatewayState × List Emit :=
  match st.sessions.find? (fun p => p.2.socketId = clientId) with
  | none => (st, [])
  | some (sessionId, session) =>
    ({ st with
        sessions := mdelete sessionId st.sessions,
        aiPeers := mdelete sessionId st.aiPeers,
        greetingSent := sdelete sessionId st.greetingSent,
        processingAudio := mdelete sessionId st.processingAudio,
        conversationHistory := mdelete sessionId st.conversationHistory },
     [.peerDisconnected sessionId session.peerId])

/-- `cleanupSession`: close and drop the peer and remove the session from
every per-session map, the activity map included. -/
def cleanupSession (sessionId : String) (st : GatewayState) : GatewayState :=
  { st with
      aiPeers := mdelete sessionId st.aiPeers,
      sessions := mdelete sessionId st.sessions,
      greetingSent := sdelete sessionId st.greetingSent,
      processingAudio := mdelete sessionId st.processingAudio,
      conversationHistory := mdelete sessionId st.conversationHistory,
      sessionLastActivity := mdelete sessionId st.sessionLastActivity }

/-- `cleanupInactiveSessions`: sweep the activity map and tear down every
session whose `lastActivity < now - SESSION_TIMEOUT_MS` (the map is
iterated in insertion order; `cleanupSession` removes only the entry
under scrutiny, so iterating the pre-sweep entries is the JS behaviour). -/
def cleanupInactiveSessions (now : Int) (st : GatewayState) : GatewayState :=
  st.sessionLastActivity.foldl
    (fun acc e => if e.2 < now - SESSION_TIMEOUT_MS then cleanupSession e.1 acc else acc) st

/-! ## Observation predicates -/

/-- Session `s` is absent from every per-session map of the gateway. -/
def sessionAbsent (s : String) (st : GatewayState) : Prop :=
  mget s st.sessions = none ∧
  mget s st.aiPeers = none ∧
  ¬ s ∈ st.greetingSent ∧
  mget s st.processingAudio = none ∧
  mget s st.conversationHistory = none ∧
  mget s st.sessionLastActivity = none

/-- Session `s` has the same view in both states: registry entry, peer,
greeting flag, latch, window and activity record all agree. -/
def sessionUntouched (s : String) (st₁ st₂ : GatewayState) : Prop :=
  mget s st₁.sessions = mget s st₂.sessions ∧
  mget s st₁.aiPeers = mget s st₂.aiPeers ∧
  (s ∈ st₁.greetingSent ↔ s ∈ st₂.greetingSent) ∧
  mget s st₁.processingAudio = mget s st₂.processingAudio ∧
  mget s st₁.conversationHistory = mget s st₂.conversationHistory ∧
  mget s st₁.sessionLastActivity = mget s st₂.sessionLastActivity

instance (s : String) (st : GatewayState) : Decidable (sessionAbsent s st) := by
  unfold sessionAbsent; infer_instance

instance (s : String) (st₁ st₂ : GatewayState) : Decidable (sessionUntouched s st₁ st₂) := by
  unfold sessionUntouched; infer_instance

theorem sessionUntouched_trans (s : String) (st₁ st₂ st₃ : GatewayState)
    (h₁ : sessionUntouched s st₁ st₂) (h₂ : sessionUntouched s st₂ st₃) :
    sessionUntouched s st₁ st₃ := by
  obtain ⟨a₁, b₁, c₁, d₁, e₁, f₁⟩ := h₁
  obtain ⟨a₂, b₂, c₂, d₂, e₂, f₂⟩ := h₂
  exact ⟨a₁.trans a₂, b₁.trans b₂, c₁.trans c₂, d₁.trans d₂, e₁.trans e₂, f₁.trans f₂⟩

/-! ## Claim theorems -/

/-- C7: the claim says `leave` closes and removes the `AICallPeer`; in the
code `handleLeaveSession` never touches the `aiPeers` map, so the peer of
the left session stays registered and open. -/
theorem C7_counterexample :
    mget "s1" (handleLeaveSession "sock1" "s1" "p1"
        ⟨[("s1", ⟨"sock1", "p1", some "call1"⟩)],
         [("s1", ⟨"s1", "call1", false, []⟩)],
         ["s1"], [("s1", false)], [("s1", [])], [("s1", 100)]⟩).1.aiPeers
      = some ⟨"s1", "call1", false, []⟩ := by
  decide

/-- C7 (amended): `leave(sessionId)` removes the registry entry, greeting
flag, processing latch and conversation window of the session and notifies
the room and the caller, but it does not close or remove the session's
`AICallPeer`, and it leaves the activity record in place. -/
theorem C7_leave_teardown (clientId sessionId peerId : String) (st : GatewayState) :
    mget sessionId (handleLeaveSession clientId sessionId peerId st).1.sessions = none ∧
    mget sessionId (handleLeaveSession clientId sessionId peerId st).1.processingAudio = none ∧
    mget sessionId (handleLeaveSession clientId sessionId peerId st).1.conversationHistory = none ∧
    ¬ sessionId ∈ (handleLeaveSession clientId sessionId peerId st).1.greetingSent ∧
    (handleLeaveSession clientId sessionId peerId st).1.aiPeers = st.aiPeers ∧
    (handleLeaveSession clientId sessionId peerId st).1.sessionLastActivity
      = st.sessionLastActivity ∧
    (handleLeaveSession clientId sessionId peerId st).2
      = [.peerLeft sessionId peerId, .leftSession clientId sessionId] := by
  refine ⟨?_, ?_, ?_, ?_, rfl, rfl, rfl⟩
  · exact mget_mdelete_self sessionId st.sessions
  · exact mget_mdelete_self sessionId st.processingAudio
  · exact mget_mdelete_self sessionId st.conversationHistory
  · exact sdelete_not_mem sessionId st.greetingSent

/-- C8: teardown is idempotent on the gateway state: a second `leave` for
the same session id changes nothing, `leave` for one id leaves every other
session's view unchanged, never touches any peer, and `leave` for an id
absent from all the maps it touches is the identity on the state. -/
theorem C8_leave_idempotent (c₁ c₂ p₁ p₂ sessionId : String) (st : GatewayState) :
    (handleLeaveSession c₂ sessionId p₂ (handleLeaveSession c₁ sessionId p₁ st).1).1
      = (handleLeaveSession c₁ sessionId p₁ st).1 ∧
    (∀ t, ¬ t = sessionId →
       sessionUntouched t (handleLeaveSession c₁ sessionId p₁ st).1 st) ∧
    (handleLeaveSession c₁ sessionId p₁ st).1.aiPeers = st.aiPeers ∧
    (mget sessionId st.sessions = none → ¬ sessionId ∈ st.greetingSent →
     mget sessionId st.processingAudio = none →
     mget sessionId st.conversationHistory = none →
     (handleLeaveSession c₁ sessionId p₁ st).1 = st) := by
  refine ⟨?_, ?_, rfl, ?_⟩
  · simp [handleLeaveSession, mdelete_mdelete, sdelete_sdelete]
  · intro t ht
    exact ⟨mget_mdelete_ne t sessionId st.sessions (fun he => ht he.symm),
           rfl,
           mem_sdelete_ne t sessionId st.greetingSent (fun he => ht he.symm),
           mget_mdelete_ne t sessionId st.processingAudio (fun he => ht he.symm),
           mget_mdelete_ne t sessionId st.conversationHistory (fun he => ht he.symm),
           rfl⟩
  · intro h₁ h₂ h₃ h₄
    simp [handleLeaveSession, mdelete_of_mget_none _ _ h₁, sdelete_of_not_mem _ _ h₂,
          mdelete_of_mget_none _ _ h₃, mdelete_of_mget_none _ _ h₄]

/-- C8 witness: double leave and never-registered leave on concrete states. -/
theorem C8_witness :
    ((handleLeaveSession "c" "s1" "p"
        (handleLeaveSession "c" "s1" "p"
          ⟨[("s1", ⟨"c", "p", none⟩)], [], ["s1"], [("s1", true)], [("s1", [])], [("s1", 5)]⟩).1).1
      = (handleLeaveSession "c" "s1" "p"
          ⟨[("s1", ⟨"c", "p", none⟩)], [], ["s1"], [("s1", true)], [("s1", [])], [("s1", 5)]⟩).1) ∧
    (handleLeaveSession "c" "ghost" "p"
        ⟨[("s1", ⟨"c", "p", none⟩)], [], ["s1"], [("s1", true)], [("s1", [])], [("s1", 5)]⟩).1
      = ⟨[("s1", ⟨"c", "p", none⟩)], [], ["s1"], [("s1", true)], [("s1", [])], [("s1", 5)]⟩ := by
  constructor
  · exact (C8_leave_idempotent "c" "c" "p" "p" "s1"
      ⟨[("s1", ⟨"c", "p", none⟩)], [], ["s1"], [("s1", true)], [("s1", [])], [("s1", 5)]⟩).1
  · exact (C8_leave_idempotent "c" "c" "p" "p" "ghost"
      ⟨[("s1", ⟨"c", "p", none⟩)], [], ["s1"], [("s1", true)], [("s1", [])], [("s1", 5)]⟩).2.2.2
      (by decide) (by decide) (by decide) (by decide)

/-- C10: on a transport disconnect, only the first registry entry (in map
iteration order) whose `socketId` is the disconnecting client is torn
down; every other session — including further sessions registered to the
same socket — keeps its registry entry, peer, latch and window; when no
entry matches, nothing happens. -/
theorem C10_disconnect_first_match (clientId : String) (st : GatewayState) :
    (∀ sessionId session,
       st.sessions.find? (fun p => p.2.socketId = clientId) = some (sessionId, session) →
       mget sessionId (handleDisconnect clientId st).1.sessions = none ∧
       mget sessionId (handleDisconnect clientId st).1.aiPeers = none ∧
       mget sessionId (handleDisconnect clientId st).1.processingAudio = none ∧
       mget sessionId (handleDisconnect clientId st).1.conversationHistory = none ∧
       ¬ sessionId ∈ (handleDisconnect clientId st).1.greetingSent ∧
       (handleDisconnect clientId st).1.sessionLastActivity = st.sessionLastActivity ∧
       (∀ t, ¬ t = sessionId → sessionUntouched t (handleDisconnect clientId st).1 st) ∧
       (handleDisconnect clientId st).2 = [.peerDisconnected sessionId session.peerId]) ∧
    (st.sessions.find? (fun p => p.2.socketId = clientId) = none →
       handleDisconnect clientId st = (st, [])) := by
  constructor
  · intro sessionId session hfind
    have hd : handleDisconnect clientId st =
        ({ st with
            sessions := mdelete sessionId st.sessions,
            aiPeers := mdelete sessionId st.aiPeers,
            greetingSent := sdelete sessionId st.greetingSent,
            processingAudio := mdelete sessionId st.processingAudio,
            conversationHistory := mdelete sessionId st.conversationHistory },
         [.peerDisconnected sessionId session.peerId]) := by
      unfold handleDisconnect
      rw [hfind]
    rw [hd]
    refine ⟨mget_mdelete_self _ _, mget_mdelete_self _ _, mget_mdelete_self _ _,
            mget_mdelete_self _ _, sdelete_not_mem _ _, rfl, ?_, rfl⟩
    intro t ht
    exact ⟨mget_mdelete_ne t sessionId st.sessions (fun he => ht he.symm),
           mget_mdelete_ne t sessionId st.aiPeers (fun he => ht he.symm),
           mem_sdelete_ne t sessionId st.greetingSent (fun he => ht he.symm),
           mget_mdelete_ne t sessionId st.processingAudio (fun he => ht he.symm),
           mget_mdelete_ne t sessionId st.conversationHistory (fun he => ht he.symm),
           rfl⟩
  · intro hnone
    unfold handleDisconnect
    rw [hnone]

/-- C10 witness: two sessions registered to the same socket; the
disconnect tears down only the first and leaves the second untouched. -/
theorem C10_witness :
    mget "s1" (handleDisconnect "sockA"
        ⟨[("s1", ⟨"sockA", "p1", none⟩), ("s2", ⟨"sockA", "p2", none⟩)],
         [("s1", ⟨"s1", "s1", false, []⟩), ("s2", ⟨"s2", "s2", false, []⟩)],
         ["s1", "s2"], [("s1", false), ("s2", true)],
         [("s1", []), ("s2", [⟨.user, "hi"⟩, ⟨.assistant, "yo"⟩])],
         [("s1", 1), ("s2", 2)]⟩).1.sessions = none ∧
    sessionUntouched "s2"
      (handleDisconnect "sockA"
        ⟨[("s1", ⟨"sockA", "p1", none⟩), ("s2", ⟨"sockA", "p2", none⟩)],
         [("s1", ⟨"s1", "s1", false, []⟩), ("s2", ⟨"s2", "s2", false, []⟩)],
         ["s1", "s2"], [("s1", false), ("s2", true)],
         [("s1", []), ("s2", [⟨.user, "hi"⟩, ⟨.assistant, "yo"⟩])],
         [("s1", 1), ("s2", 2)]⟩).1
      ⟨[("s1", ⟨"sockA", "p1", none⟩), ("s2", ⟨"sockA", "p2", none⟩)],
       [("s1", ⟨"s1", "s1", false, []⟩), ("s2", ⟨"s2", "s2", false, []⟩)],
       ["s1", "s2"], [("s1", false), ("s2", true)],
       [("s1", []), ("s2", [⟨.user, "hi"⟩, ⟨.assistant, "yo"⟩])],
       [("s1", 1), ("s2", 2)]⟩ := by
  constructor
  · exact ((C10_disconnect_first_match "sockA" _).1 "s1" ⟨"sockA", "p1", none⟩ (by decide)).1
  · exact (((C10_disconnect_first_match "sockA" _).1 "s1" ⟨"sockA", "p1", none⟩
      (by decide)).2.2.2.2.2.2.1 "s2" (by decide))

/-- The pipeline body only ever writes the conversation history; every
other field of the state passes through unchanged. -/
theorem audioPipelineBody_state (o : Oracle) (clientId sessionId : String)
    (audioBuffer : List Nat) (st : GatewayState) :
    ∃ h, (audioPipelineBody o clientId sessionId audioBuffer st).1
      = { st with conversationHistory := h } := by
  simp only [audioPipelineBody]
  repeat' split
  all_goals exact ⟨_, rfl⟩

/-- C4: once an inbound audio event is accepted (latch not already busy),
the processing latch for that session is `false` in the final state on
every path: size floor, empty transcription, too-short transcription,
noise filter, generation failure, synthesis failure and normal completion
(the oracle is universally quantified, so every branch is covered). -/
theorem C4_latch_released (o : Oracle) (now : Int) (clientId sessionId : String)
    (audioBuffer : List Nat) (st : GatewayState)
    (hb : ¬ mget sessionId st.processingAudio = some true) :
    mget sessionId
        (handleUserAudio o now clientId sessionId audioBuffer st).1.processingAudio
      = some false := by
  simp only [handleUserAudio, audioBegin, hb, if_false, ite_false, if_neg hb]
  exact mget_mset_self sessionId false _

/-- C4 witness: accepted event on the empty state with a failing speech
synthesis still ends with the latch at `false`. -/
theorem C4_witness :
    mget "s1" (handleUserAudio
        ⟨fun _ => .ok "안녕하세요", fun _ _ => .ok "반갑습니다", fun _ => .error "down"⟩
        3 "sock1" "s1" [] GatewayState.empty).1.processingAudio = some false :=
  C4_latch_released ⟨fun _ => .ok "안녕하세요", fun _ _ => .ok "반갑습니다", fun _ => .error "down"⟩
    3 "sock1" "s1" [] GatewayState.empty (by decide)

/-- C9: the claim says `lastActivityAt` is updated on inbound media
negotiation; in the code `handleOffer` creates the fallback session entry
and the peer but never calls `updateSessionActivity`, so a session touched
only by an offer has no activity record at all. -/
theorem C9_counterexample :
    ¬ (handleOffer true "sock1" "s1" "p1" GatewayState.empty).1.sessions
        = GatewayState.empty.sessions ∧
    mget "s1" (handleOffer true "sock1" "s1" "p1"
        GatewayState.empty).1.sessionLastActivity = none := by
  decide

/-- C9 (amended): `lastActivityAt` is updated, in the same handler run, on
join and on every accepted inbound audio event; offer handling (including
the fallback session synthesized when join was skipped) mutates the
session registry and the peer map without touching the activity record. -/
theorem C9_activity_updates (o : Oracle) (now : Int)
    (clientId sessionId peerId : String) (callId : Option String) (offerOk : Bool)
    (audioBuffer : List Nat) (st : GatewayState) :
    mget sessionId
        (handleJoinSession now clientId sessionId peerId callId st).1.sessionLastActivity
      = some now ∧
    (¬ mget sessionId st.processingAudio = some true →
      mget sessionId
          (handleUserAudio o now clientId sessionId audioBuffer st).1.sessionLastActivity
        = some now) ∧
    (handleOffer offerOk clientId sessionId peerId st).1.sessionLastActivity
      = st.sessionLastActivity := by
  refine ⟨?_, ?_, ?_⟩
  · simp only [handleJoinSession, updateSessionActivity]
    exact mget_mset_self sessionId now _
  · intro hb
    obtain ⟨h, hh⟩ := audioPipelineBody_state o clientId sessionId audioBuffer
      (updateSessionActivity now sessionId
        { st with processingAudio := mset sessionId true st.processingAudio })
    simp only [updateSessionActivity] at hh
    simp [handleUserAudio, audioBegin, hb, updateSessionActivity, hh, mget_mset_self]
  · simp only [handleOffer]
    repeat' split
    all_goals rfl

/-- C9 witness: join and an accepted audio event stamp the activity record. -/
theorem C9_witness :
    mget "s1" (handleJoinSession 42 "sock1" "s1" "p1" none
        GatewayState.empty).1.sessionLastActivity = some 42 ∧
    mget "s1" (handleUserAudio ⟨fun _ => .ok "", fun _ _ => .ok "", fun _ => .ok []⟩
        42 "sock1" "s1" [] GatewayState.empty).1.sessionLastActivity = some 42 := by
  constructor
  · exact (C9_activity_updates ⟨fun _ => .ok "", fun _ _ => .ok "", fun _ => .ok []⟩
      42 "sock1" "s1" "p1" none true [] GatewayState.empty).1
  · exact (C9_activity_updates ⟨fun _ => .ok "", fun _ _ => .ok "", fun _ => .ok []⟩
      42 "sock1" "s1" "p1" none true [] GatewayState.empty).2.1 (by decide)

/-- N consecutive inbound audio events for one session that all arrive
before the first run's `finally` block (so while the latch is held): the
synchronous latch-check-and-acquire prefix of each handler invocation, in
arrival order, counting how many are accepted. -/
def overlapBegins (now : Int) (sessionId : String) : Nat → GatewayState → GatewayState × Nat
  | 0, st => (st, 0)
  | n + 1, st =>
    let r := audioBegin now sessionId st
    let rest := overlapBegins now sessionId n r.1
    (rest.1, (if r.2 then 1 else 0) + rest.2)

theorem overlapBegins_busy (now : Int) (sessionId : String) (n : Nat) (st : GatewayState)
    (h : mget sessionId st.processingAudio = some true) :
    overlapBegins now sessionId n st = (st, 0) := by
  induction n with
  | zero => rfl
  | succ k ih => simp [overlapBegins, audioBegin, h, ih]

/-- C1: while the processing latch of a session is held, an inbound audio
event for it is dropped whole — state unchanged, nothing emitted, nothing
queued — and of N ≥ 1 inbound audio events for the same session that
overlap one run, exactly one is accepted. -/
theorem C1_single_run (o : Oracle) (now : Int) (clientId sessionId : String)
    (audioBuffer : List Nat) (st : GatewayState) (n : Nat) :
    (mget sessionId st.processingAudio = some true →
       handleUserAudio o now clientId sessionId audioBuffer st = (st, [])) ∧
    (¬ mget sessionId st.processingAudio = some true → 1 ≤ n →
       (overlapBegins now sessionId n st).2 = 1) := by
  constructor
  · intro h
    simp [handleUserAudio, audioBegin, h]
  · intro h hn
    obtain ⟨m, rfl⟩ : ∃ m, n = m + 1 := ⟨n - 1, by omega⟩
    have hbusy : mget sessionId
        (updateSessionActivity now sessionId
          { st with processingAudio := mset sessionId true st.processingAudio }).processingAudio
        = some true := mget_mset_self sessionId true st.processingAudio
    simp [overlapBegins, audioBegin, h, overlapBegins_busy now sessionId m _ hbusy]

/-- C1 witness: a busy latch drops the event with no state change and no
emission; three overlapping events on a fresh session yield exactly one
accepted run. -/
theorem C1_witness :
    handleUserAudio ⟨fun _ => .ok "", fun _ _ => .ok "", fun _ => .ok []⟩
        0 "sock1" "s1" [] ⟨[], [], [], [("s1", true)], [], []⟩
      = (⟨[], [], [], [("s1", true)], [], []⟩, []) ∧
    (overlapBegins 0 "s1" 3 GatewayState.empty).2 = 1 := by
  constructor
  · exact (C1_single_run ⟨fun _ => .ok "", fun _ _ => .ok "", fun _ => .ok []⟩
      0 "sock1" "s1" [] ⟨[], [], [], [("s1", true)], [], []⟩ 3).1 (by decide)
  · exact (C1_single_run ⟨fun _ => .ok "", fun _ _ => .ok "", fun _ => .ok []⟩
      0 "sock1" "s1" [] GatewayState.empty 3).2 (by decide) (by decide)

/-- C2: the claim says a below-floor audio event is silently ignored with
no outbound event of any kind; in the code the size-floor branch calls
`sendFeedbackResponse`, which emits a feedback `ai-audio-response` to the
session room. -/
theorem C2_counterexample :
    (handleUserAudio ⟨fun _ => .ok "", fun _ _ => .ok "", fun _ => .ok [7]⟩
        0 "sock1" "s1" (List.replicate 18000 0) GatewayState.empty).2
      = [.aiAudioResponse "s1" [7]] := by
  have key : ∀ buf : List Nat, buf.length = 18000 →
      (handleUserAudio ⟨fun _ => .ok "", fun _ _ => .ok "", fun _ => .ok [7]⟩
          0 "sock1" "s1" buf GatewayState.empty).2
        = [.aiAudioResponse "s1" [7]] := by
    intro buf hbuf
    have hl : buf.length < 20000 := by omega
    simp [handleUserAudio, audioBegin, GatewayState.empty, mget, updateSessionActivity,
          audioPipelineBody, hl, sendFeedbackResponse, textToSpeech, feedbackUnclear]
  exact key _ (by rw [List.length_replicate])

/-- C2 (amended): a below-floor (< 20000 bytes) audio event stops the
pipeline before transcription — the result does not depend on the Whisper
or chat oracles — and still updates `lastActivityAt`, leaving registry,
peers and window untouched and the latch released; but it is not silent:
the feedback message is synthesized and emitted as an `ai-audio-response`
(nothing is emitted only if that synthesis itself fails). -/
theorem C2_size_floor (o : Oracle) (now : Int) (clientId sessionId : String)
    (audioBuffer : List Nat) (st : GatewayState)
    (hb : ¬ mget sessionId st.processingAudio = some true)
    (hlen : audioBuffer.length < 20000) :
    (handleUserAudio o now clientId sessionId audioBuffer st).2
      = sendFeedbackResponse o sessionId feedbackUnclear ∧
    mget sessionId
        (handleUserAudio o now clientId sessionId audioBuffer st).1.sessionLastActivity
      = some now ∧
    (handleUserAudio o now clientId sessionId audioBuffer st).1.sessions = st.sessions ∧
    (handleUserAudio o now clientId sessionId audioBuffer st).1.aiPeers = st.aiPeers ∧
    (handleUserAudio o now clientId sessionId audioBuffer st).1.conversationHistory
      = st.conversationHistory ∧
    mget sessionId
        (handleUserAudio o now clientId sessionId audioBuffer st).1.processingAudio
      = some false ∧
    (∀ o' : Oracle, o'.speech = o.speech →
       handleUserAudio o' now clientId sessionId audioBuffer st
         = handleUserAudio o now clientId sessionId audioBuffer st) := by
  refine ⟨?_, ?_, ?_, ?_, ?_, ?_, ?_⟩
  case _ =>
    simp [handleUserAudio, audioBegin, hb, audioPipelineBody, hlen, updateSessionActivity]
  case _ =>
    simp [handleUserAudio, audioBegin, hb, audioPipelineBody, hlen, updateSessionActivity,
          mget_mset_self]
  case _ =>
    simp [handleUserAudio, audioBegin, hb, audioPipelineBody, hlen, updateSessionActivity]
  case _ =>
    simp [handleUserAudio, audioBegin, hb, audioPipelineBody, hlen, updateSessionActivity]
  case _ =>
    simp [handleUserAudio, audioBegin, hb, audioPipelineBody, hlen, updateSessionActivity]
  case _ =>
    simp [handleUserAudio, audioBegin, hb, audioPipelineBody, hlen, updateSessionActivity,
          mget_mset_self]
  case _ =>
    intro o' hsp
    simp [handleUserAudio, audioBegin, hb, audioPipelineBody, hlen, updateSessionActivity,
          sendFeedbackResponse, textToSpeech, hsp]

/-- C2 witness: an 18000-byte buffer (below the 20 KB floor) on a fresh
session updates the activity record and emits the synthesized feedback. -/
theorem C2_witness :
    (handleUserAudio ⟨fun _ => .ok "", fun _ _ => .ok "", fun _ => .ok [7]⟩
        5 "sock1" "s1" (List.replicate 18000 0) GatewayState.empty).2
      = sendFeedbackResponse ⟨fun _ => .ok "", fun _ _ => .ok "", fun _ => .ok [7]⟩
          "s1" feedbackUnclear ∧
    mget "s1" (handleUserAudio ⟨fun _ => .ok "", fun _ _ => .ok "", fun _ => .ok [7]⟩
        5 "sock1" "s1" (List.replicate 18000 0) GatewayState.empty).1.sessionLastActivity
      = some 5 := by
  constructor
  · exact (C2_size_floor ⟨fun _ => .ok "", fun _ _ => .ok "", fun _ => .ok [7]⟩
      5 "sock1" "s1" (List.replicate 18000 0) GatewayState.empty (by decide)
      (by rw [List.length_replicate]; omega)).1
  · exact (C2_size_floor ⟨fun _ => .ok "", fun _ _ => .ok "", fun _ => .ok [7]⟩
      5 "sock1" "s1" (List.replicate 18000 0) GatewayState.empty (by decide)
      (by rw [List.length_replicate]; omega)).2.1

/-- C5: the claim says the conversation window is unchanged when
synthesis throws; in the code the turn is appended to the window (step 4)
before TTS (step 5), so a synthesis failure leaves the freshly appended
turn in the window while the generic error event is emitted. -/
theorem C5_counterexample :
    (handleUserAudio ⟨fun _ => .ok "안녕하세요", fun _ _ => .ok "반갑습니다", fun _ => .error "x"⟩
        0 "sock1" "s1" (List.replicate 20000 1) GatewayState.empty).2
      = [.errorEvt "sock1" "Failed to process audio"] ∧
    ¬ mget "s1" (handleUserAudio
        ⟨fun _ => .ok "안녕하세요", fun _ _ => .ok "반갑습니다", fun _ => .error "x"⟩
        0 "sock1" "s1" (List.replicate 20000 1) GatewayState.empty).1.conversationHistory
      = mget "s1" GatewayState.empty.conversationHistory := by
  have key : ∀ buf : List Nat, buf.length = 20000 →
      (handleUserAudio ⟨fun _ => .ok "안녕하세요", fun _ _ => .ok "반갑습니다", fun _ => .error "x"⟩
          0 "sock1" "s1" buf GatewayState.empty).2
        = [.errorEvt "sock1" "Failed to process audio"] ∧
      ¬ mget "s1" (handleUserAudio
          ⟨fun _ => .ok "안녕하세요", fun _ _ => .ok "반갑습니다", fun _ => .error "x"⟩
          0 "sock1" "s1" buf GatewayState.empty).1.conversationHistory
        = mget "s1" GatewayState.empty.conversationHistory := by
    intro buf hbuf
    have hl : ¬ buf.length < 20000 := by omega
    have h0 : ¬ ((jsTrim "안녕하세요").length = 0) := by decide
    have h3 : ¬ ((jsTrim "안녕하세요").length < 3) := by decide
    have hn : noiseDetected "안녕하세요" = false := by decide
    constructor
    · simp [handleUserAudio, audioBegin, GatewayState.empty, mget, updateSessionActivity,
            audioPipelineBody, hl, transcribeAudio, h0, h3, hn, generateResponse,
            textToSpeech, appendTurn]
    · simp [handleUserAudio, audioBegin, GatewayState.empty, mget, updateSessionActivity,
            audioPipelineBody, hl, transcribeAudio, h0, h3, hn, generateResponse,
            textToSpeech, appendTurn, mset]
  exact key _ (by rw [List.length_replicate])

/-- C5 (amended): if response generation or speech synthesis throws
(transcription never throws to the gateway: the service catches Whisper
failures and returns an empty transcript), the turn is aborted with the
single generic `error` event to the calling socket and no retry, the
registry entry and peer map are untouched and the latch is released; the
conversation window is unchanged when generation fails, but when synthesis
fails the completed turn has already been appended to the window. -/
theorem C5_error_isolation (o : Oracle) (now : Int) (clientId sessionId : String)
    (audioBuffer : List Nat) (st : GatewayState)
    (hb : ¬ mget sessionId st.processingAudio = some true)
    (hlen : ¬ audioBuffer.length < 20000)
    (hne : ¬ (jsTrim (transcribeAudio o audioBuffer)).length = 0)
    (hlen3 : ¬ (jsTrim (transcribeAudio o audioBuffer)).length < 3)
    (hnz : noiseDetected (transcribeAudio o audioBuffer) = false) :
    (∀ e, o.chat (transcribeAudio o audioBuffer)
          ((mget sessionId st.conversationHistory).getD []) = .error e →
       (handleUserAudio o now clientId sessionId audioBuffer st).2
         = [.errorEvt clientId "Failed to process audio"] ∧
       (handleUserAudio o now clientId sessionId audioBuffer st).1.sessions = st.sessions ∧
       (handleUserAudio o now clientId sessionId audioBuffer st).1.aiPeers = st.aiPeers ∧
       (handleUserAudio o now clientId sessionId audioBuffer st).1.conversationHistory
         = st.conversationHistory ∧
       mget sessionId
           (handleUserAudio o now clientId sessionId audioBuffer st).1.processingAudio
         = some false) ∧
    (∀ resp e, o.chat (transcribeAudio o audioBuffer)
          ((mget sessionId st.conversationHistory).getD []) = .ok resp →
       o.speech resp = .error e →
       (handleUserAudio o now clientId sessionId audioBuffer st).2
         = [.errorEvt clientId "Failed to process audio"] ∧
       (handleUserAudio o now clientId sessionId audioBuffer st).1.sessions = st.sessions ∧
       (handleUserAudio o now clientId sessionId audioBuffer st).1.aiPeers = st.aiPeers ∧
       mget sessionId
           (handleUserAudio o now clientId sessionId audioBuffer st).1.conversationHistory
         = some (appendTurn ((mget sessionId st.conversationHistory).getD [])
             (transcribeAudio o audioBuffer) resp) ∧
       mget sessionId
           (handleUserAudio o now clientId sessionId audioBuffer st).1.processingAudio
         = some false) := by
  constructor
  · intro e herr
    simp [handleUserAudio, audioBegin, hb, updateSessionActivity, audioPipelineBody,
          hlen, hne, hlen3, hnz, generateResponse, herr, mget_mset_self]
  · intro resp e hok hsp
    simp [handleUserAudio, audioBegin, hb, updateSessionActivity, audioPipelineBody,
          hlen, hne, hlen3, hnz, generateResponse, hok, textToSpeech, hsp, mget_mset_self]

/-- C5 witness: a generation failure leaves the window untouched; a
synthesis failure emits the error with the turn already appended. -/
theorem C5_witness :
    ((handleUserAudio ⟨fun _ => .ok "안녕하세요", fun _ _ => .error "down", fun _ => .ok [9]⟩
        0 "sock1" "s1" (List.replicate 20000 1) GatewayState.empty).2
      = [.errorEvt "sock1" "Failed to process audio"] ∧
     (handleUserAudio ⟨fun _ => .ok "안녕하세요", fun _ _ => .error "down", fun _ => .ok [9]⟩
        0 "sock1" "s1" (List.replicate 20000 1) GatewayState.empty).1.conversationHistory
      = GatewayState.empty.conversationHistory) ∧
    mget "s1" (handleUserAudio
        ⟨fun _ => .ok "안녕하세요", fun _ _ => .ok "반갑습니다", fun _ => .error "x"⟩
        0 "sock1" "s1" (List.replicate 20000 1) GatewayState.empty).1.conversationHistory
      = some (appendTurn [] "안녕하세요" "반갑습니다") := by
  have hlen : ¬ (List.replicate 20000 (1 : Nat)).length < 20000 := by
    rw [List.length_replicate]; omega
  constructor
  · have h := (C5_error_isolation
      ⟨fun _ => .ok "안녕하세요", fun _ _ => .error "down", fun _ => .ok [9]⟩
      0 "sock1" "s1" (List.replicate 20000 1) GatewayState.empty
      (by decide) hlen (by decide) (by decide) (by decide)).1 "down" rfl
    exact ⟨h.1, h.2.2.2.1⟩
  · have h := (C5_error_isolation
      ⟨fun _ => .ok "안녕하세요", fun _ _ => .ok "반갑습니다", fun _ => .error "x"⟩
      0 "sock1" "s1" (List.replicate 20000 1) GatewayState.empty
      (by decide) hlen (by decide) (by decide) (by decide)).2 "반갑습니다" "x" rfl rfl
    exact h.2.2.2.1

/-- The window consists of complete chronological (user, assistant)
pairs — equivalently, it alternates user/assistant starting with user and
has even length. -/
def isAltPairs : List Msg → Bool
  | [] => true
  | ⟨Role.user, _⟩ :: ⟨Role.assistant, _⟩ :: rest => isAltPairs rest
  | _ => false

theorem isAltPairs_append : ∀ (l : List Msg) (u a : String), isAltPairs l = true →
    isAltPairs (l ++ [⟨Role.user, u⟩, ⟨Role.assistant, a⟩]) = true
  | [], _, _, _ => rfl
  | ⟨Role.user, _⟩ :: ⟨Role.assistant, _⟩ :: rest, u, a, h => by
    simp only [isAltPairs] at h
    simpa [isAltPairs] using isAltPairs_append rest u a h
  | ⟨Role.user, _⟩ :: ⟨Role.user, _⟩ :: _, _, _, h => by simp [isAltPairs] at h
  | ⟨Role.assistant, _⟩ :: _, _, _, h => by simp [isAltPairs] at h
  | ⟨Role.user, _⟩ :: [], _, _, h => by simp [isAltPairs] at h

theorem isAltPairs_even : ∀ (l : List Msg), isAltPairs l = true → l.length % 2 = 0
  | [], _ => rfl
  | ⟨Role.user, _⟩ :: ⟨Role.assistant, _⟩ :: rest, h => by
    simp only [isAltPairs] at h
    have := isAltPairs_even rest h
    simp only [List.length_cons]
    omega
  | ⟨Role.user, _⟩ :: ⟨Role.user, _⟩ :: _, h => by simp [isAltPairs] at h
  | ⟨Role.assistant, _⟩ :: _, h => by simp [isAltPairs] at h
  | ⟨Role.user, _⟩ :: [], h => by simp [isAltPairs] at h

theorem isAltPairs_drop2 : ∀ (l : List Msg), isAltPairs l = true →
    isAltPairs (l.drop 2) = true
  | [], _ => rfl
  | ⟨Role.user, _⟩ :: ⟨Role.assistant, _⟩ :: rest, h => by
    simp only [isAltPairs] at h
    simpa using h
  | ⟨Role.user, _⟩ :: ⟨Role.user, _⟩ :: _, h => by simp [isAltPairs] at h
  | ⟨Role.assistant, _⟩ :: _, h => by simp [isAltPairs] at h
  | ⟨Role.user, _⟩ :: [], h => by simp [isAltPairs] at h

theorem appendTurn_step (history : List Msg) (u a : String)
    (h : isAltPairs history = true) (hlen : history.length ≤ 20) :
    isAltPairs (appendTurn history u a) = true ∧
    (appendTurn history u a).length ≤ 20 ∧
    ∃ k, k % 2 = 0 ∧
      appendTurn history u a
        = (history ++ [(⟨Role.user, u⟩ : Msg), ⟨Role.assistant, a⟩]).drop k := by
  have heven := isAltPairs_even history h
  have happ := isAltPairs_append history u a h
  have hal : (history ++ [(⟨Role.user, u⟩ : Msg), ⟨Role.assistant, a⟩]).length
      = history.length + 2 := by simp
  unfold appendTurn
  by_cases hc : 20 < (history ++ [(⟨Role.user, u⟩ : Msg), ⟨Role.assistant, a⟩]).length
  · have h20 : history.length = 20 := by omega
    have hdrop : (history ++ [(⟨Role.user, u⟩ : Msg), ⟨Role.assistant, a⟩]).length - 20 = 2 := by
      omega
    rw [if_pos hc, hdrop]
    refine ⟨isAltPairs_drop2 _ happ, ?_, 2, by norm_num, rfl⟩
    simp [List.length_drop, hal, h20]
  · rw [if_neg hc]
    exact ⟨happ, by omega, 0, by norm_num, by simp⟩

theorem foldl_appendTurn_inv (turns : List (String × String)) :
    ∀ history, isAltPairs history = true → history.length ≤ 20 →
      isAltPairs (turns.foldl (fun h t => appendTurn h t.1 t.2) history) = true ∧
      (turns.foldl (fun h t => appendTurn h t.1 t.2) history).length ≤ 20 := by
  induction turns with
  | nil => intro history hh hl; exact ⟨hh, hl⟩
  | cons t rest ih =>
    intro history hh hl
    have step := appendTurn_step history t.1 t.2 hh hl
    simpa [List.foldl_cons] using ih (appendTurn history t.1 t.2) step.1 step.2.1

/-- C3: after any sequence of processed turns starting from the absent
(empty) window, the window holds at most 20 entries and always consists of
complete (user, assistant) pairs in order; each single append truncates,
if at all, by dropping an even-length (complete-pairs) prefix, i.e. the
oldest turns; the chat gateway applies the identical update. -/
theorem C3_window_bound :
    (∀ turns : List (String × String),
       isAltPairs (turns.foldl (fun h t => appendTurn h t.1 t.2) []) = true ∧
       (turns.foldl (fun h t => appendTurn h t.1 t.2) []).length ≤ 20) ∧
    (∀ history u a, isAltPairs history = true → history.length ≤ 20 →
       isAltPairs (appendTurn history u a) = true ∧
       (appendTurn history u a).length ≤ 20 ∧
       ∃ k, k % 2 = 0 ∧
         appendTurn history u a
           = (history ++ [(⟨Role.user, u⟩ : Msg), ⟨Role.assistant, a⟩]).drop k) ∧
    (∀ history u a, chatAppendTurn history u a = appendTurn history u a) :=
  ⟨fun turns => foldl_appendTurn_inv turns [] rfl (by norm_num),
   appendTurn_step,
   fun _ _ _ => rfl⟩

/-- C3 witness: eleven turns overflow the 20-entry cap by exactly one
pair and the per-append characterisation holds at a window of length 20. -/
theorem C3_witness :
    ((List.replicate 11 ("q", "r")).foldl (fun h t => appendTurn h t.1 t.2) []).length ≤ 20 ∧
    isAltPairs (appendTurn (List.replicate 10 ⟨Role.user, "q"⟩
        |>.zip (List.replicate 10 ⟨Role.assistant, "r"⟩)
        |>.foldr (fun p acc => p.1 :: p.2 :: acc) []) "u" "a") = true := by
  constructor
  · exact (C3_window_bound.1 (List.replicate 11 ("q", "r"))).2
  · exact (C3_window_bound.2.1 _ "u" "a" (by decide) (by decide)).1

theorem mget_mem (k : String) (v : α) : ∀ l : List (String × α), mget k l = some v → (k, v) ∈ l
  | [], h => by simp [mget] at h
  | p :: rest, h => by
    by_cases h1 : p.1 = k
    · simp [mget, h1] at h
      have hp : p = (k, v) := by
        cases p
        simp_all
      rw [← hp]
      exact List.mem_cons_self p rest
    · simp [mget, h1] at h
      exact List.mem_cons_of_mem p (mget_mem k v rest h)

theorem mget_nodup_unique (s : String) (la : α) :
    ∀ l : List (String × α), (l.map Prod.fst).Nodup → mget s l = some la →
      ∀ e ∈ l, e.1 = s → e.2 = la
  | [], _, h, _, he, _ => by simp at he
  | p :: rest, hnodup, h, e, he, hes => by
    have hnd : ¬ p.1 ∈ rest.map Prod.fst ∧ (rest.map Prod.fst).Nodup := by
      rw [List.map_cons, List.nodup_cons] at hnodup
      exact hnodup
    by_cases h1 : p.1 = s
    · simp [mget, h1] at h
      rcases List.mem_cons.mp he with he | he
      · rw [he]; exact h
      · exfalso
        have hm : e.1 ∈ rest.map Prod.fst := List.mem_map_of_mem Prod.fst he
        rw [hes, ← h1] at hm
        exact hnd.1 hm
    · simp [mget, h1] at h
      rcases List.mem_cons.mp he with he | he
      · exfalso; rw [he] at hes; exact h1 hes
      · exact mget_nodup_unique s la rest hnd.2 h e he hes

theorem cleanupSession_absent (s : String) (st : GatewayState) :
    sessionAbsent s (cleanupSession s st) :=
  ⟨mget_mdelete_self s st.sessions, mget_mdelete_self s st.aiPeers,
   sdelete_not_mem s st.greetingSent, mget_mdelete_self s st.processingAudio,
   mget_mdelete_self s st.conversationHistory, mget_mdelete_self s st.sessionLastActivity⟩

theorem cleanupSession_untouched (s t : String) (st : GatewayState) (h : ¬ t = s) :
    sessionUntouched s (cleanupSession t st) st :=
  ⟨mget_mdelete_ne s t st.sessions h, mget_mdelete_ne s t st.aiPeers h,
   mem_sdelete_ne s t st.greetingSent h, mget_mdelete_ne s t st.processingAudio h,
   mget_mdelete_ne s t st.conversationHistory h, mget_mdelete_ne s t st.sessionLastActivity h⟩

theorem cleanupSession_absent_preserved (s t : String) (st : GatewayState)
    (h : sessionAbsent s st) : sessionAbsent s (cleanupSession t st) := by
  by_cases he : t = s
  · rw [he]; exact cleanupSession_absent s st
  · obtain ⟨h1, h2, h3, h4, h5, h6⟩ := h
    obtain ⟨u1, u2, u3, u4, u5, u6⟩ := cleanupSession_untouched s t st he
    exact ⟨u1.trans h1, u2.trans h2, fun hm => h3 (u3.mp hm), u4.trans h4,
           u5.trans h5, u6.trans h6⟩

theorem reaperFold_absent (now : Int) (s : String) :
    ∀ (l : List (String × Int)) (acc : GatewayState), sessionAbsent s acc →
      sessionAbsent s (l.foldl
        (fun acc e => if e.2 < now - SESSION_TIMEOUT_MS then cleanupSession e.1 acc else acc)
        acc)
  | [], _, h => h
  | e :: rest, acc, h => by
    simp only [List.foldl_cons]
    by_cases hc : e.2 < now - SESSION_TIMEOUT_MS
    · rw [if_pos hc]
      exact reaperFold_absent now s rest _ (cleanupSession_absent_preserved s e.1 acc h)
    · rw [if_neg hc]
      exact reaperFold_absent now s rest acc h

theorem reaperFold_removes (now : Int) (s : String) (la : Int) :
    ∀ (l : List (String × Int)) (acc : GatewayState), (s, la) ∈ l →
      la < now - SESSION_TIMEOUT_MS →
      sessionAbsent s (l.foldl
        (fun acc e => if e.2 < now - SESSION_TIMEOUT_MS then cleanupSession e.1 acc else acc)
        acc)
  | [], _, hm, _ => by simp at hm
  | e :: rest, acc, hm, hla => by
    simp only [List.foldl_cons]
    rcases List.mem_cons.mp hm with he | he
    · subst he
      have hc : ((s, la) : String × Int).2 < now - SESSION_TIMEOUT_MS := hla
      rw [if_pos hc]
      exact reaperFold_absent now s rest _ (cleanupSession_absent s acc)
    · exact reaperFold_removes now s la rest _ he hla

theorem reaperFold_untouched (now : Int) (s : String) :
    ∀ (l : List (String × Int)) (acc : GatewayState),
      (∀ e ∈ l, e.1 = s → ¬ e.2 < now - SESSION_TIMEOUT_MS) →
      sessionUntouched s (l.foldl
        (fun acc e => if e.2 < now - SESSION_TIMEOUT_MS then cleanupSession e.1 acc else acc)
        acc) acc
  | [], acc, _ => ⟨rfl, rfl, Iff.rfl, rfl, rfl, rfl⟩
  | e :: rest, acc, h => by
    simp only [List.foldl_cons]
    have hrest : ∀ e₁ ∈ rest, e₁.1 = s → ¬ e₁.2 < now - SESSION_TIMEOUT_MS :=
      fun e₁ he₁ => h e₁ (List.mem_cons_of_mem e he₁)
    by_cases hc : e.2 < now - SESSION_TIMEOUT_MS
    · have hne : ¬ e.1 = s := fun hes => h e (List.mem_cons_self e rest) hes hc
      rw [if_pos hc]
      exact sessionUntouched_trans s _ _ _
        (reaperFold_untouched now s rest (cleanupSession e.1 acc) hrest)
        (cleanupSession_untouched s e.1 acc hne)
    · rw [if_neg hc]
      exact reaperFold_untouched now s rest acc hrest

/-- C6: after one reaper sweep at time `now`, every session whose
`now - lastActivityAt` strictly exceeds the 30-minute timeout is absent
from the registry and from every per-session map, and every session whose
activity is within the timeout keeps its entire per-session view
unchanged. -/
theorem C6_idle_reaper (st : GatewayState) (now : Int) (s : String) (la : Int)
    (hnodup : (st.sessionLastActivity.map Prod.fst).Nodup)
    (hla : mget s st.sessionLastActivity = some la) :
    (SESSION_TIMEOUT_MS < now - la → sessionAbsent s (cleanupInactiveSessions now st)) ∧
    (now - la ≤ SESSION_TIMEOUT_MS → sessionUntouched s (cleanupInactiveSessions now st) st) := by
  constructor
  · intro ht
    have hlt : la < now - SESSION_TIMEOUT_MS := by omega
    exact reaperFold_removes now s la st.sessionLastActivity st
      (mget_mem s la st.sessionLastActivity hla) hlt
  · intro ht
    have hall : ∀ e ∈ st.sessionLastActivity, e.1 = s → ¬ e.2 < now - SESSION_TIMEOUT_MS := by
      intro e he hes
      have := mget_nodup_unique s la st.sessionLastActivity hnodup hla e he hes
      omega
    exact reaperFold_untouched now s st.sessionLastActivity st hall

/-- C6 witness: at `now = TIMEOUT + 5`, a session last active at 0 is
reaped from every map and a session last active at 1000 survives with its
view unchanged. -/
theorem C6_witness :
    sessionAbsent "old" (cleanupInactiveSessions (SESSION_TIMEOUT_MS + 5)
      ⟨[("old", ⟨"c1", "p1", none⟩), ("fresh", ⟨"c2", "p2", none⟩)],
       [("old", ⟨"old", "old", false, []⟩)], ["old", "fresh"],
       [("old", false), ("fresh", true)], [("old", []), ("fresh", [])],
       [("old", 0), ("fresh", 1000)]⟩) ∧
    sessionUntouched "fresh" (cleanupInactiveSessions (SESSION_TIMEOUT_MS + 5)
      ⟨[("old", ⟨"c1", "p1", none⟩), ("fresh", ⟨"c2", "p2", none⟩)],
       [("old", ⟨"old", "old", false, []⟩)], ["old", "fresh"],
       [("old", false), ("fresh", true)], [("old", []), ("fresh", [])],
       [("old", 0), ("fresh", 1000)]⟩)
      ⟨[("old", ⟨"c1", "p1", none⟩), ("fresh", ⟨"c2", "p2", none⟩)],
       [("old", ⟨"old", "old", false, []⟩)], ["old", "fresh"],
       [("old", false), ("fresh", true)], [("old", []), ("fresh", [])],
       [("old", 0), ("fresh", 1000)]⟩ := by
  constructor
  · exact (C6_idle_reaper _ (SESSION_TIMEOUT_MS + 5) "old" 0 (by decide) (by decide)).1
      (by norm_num)
  · exact (C6_idle_reaper _ (SESSION_TIMEOUT_MS + 5) "fresh" 1000 (by decide) (by decide)).2
      (by norm_num [SESSION_TIMEOUT_MS])
